import Mathlib

/-!
Verification of the FourSight multi-source retrieval aggregator ("MCP").

This file gives a shallow embedding, in Lean 4, of the aggregator subsystem
of the repository:

* `src/utils/mcp.py` — the `ModelContextProtocol` class: result cache,
  web adapter (`search_web`), query translator (`_translate_to_english`),
  discussion-board formatting and relevance scoring
  (`_format_reddit_results`, `_calculate_reddit_relevance`), product-directory
  ranking (`_rank_producthunt_results`) and the aggregation entry point
  (`get_context`).
* `src/utils/api_utils.py` — the retry/backoff helpers (`search_web`,
  `call_groq_api`).
* `src/improved_filtering.py` — `filter_reddit_results`.

Python strings are modelled as Lean `String`s manipulated through their
underlying `List Char`; Python floats are modelled as exact rationals `ℚ`;
Python ints as `Int`/`Nat`; wall-clock instants (`time.time()`) as `Int`.
Network I/O is modelled by passing the response(s) a call would observe as an
explicit argument; each model additionally reports the number of network
requests it issued, and the back-off sleeps it performed, so that caching and
retry behaviour are observable.  `str.lower()` is modelled as ASCII
lowercasing (every theorem below only lowercases ASCII input).
-/

set_option maxRecDepth 8000

namespace FourSight

/-! ### Python text primitives -/

/-- ASCII lowercasing of one character (model of `str.lower` per character). -/
def lowerChar (c : Char) : Char :=
  if 'A' ≤ c ∧ c ≤ 'Z' then Char.ofNat (c.toNat + 32) else c

/-- ASCII uppercasing of one character (used by `str.capitalize`). -/
def upperChar (c : Char) : Char :=
  if 'a' ≤ c ∧ c ≤ 'z' then Char.ofNat (c.toNat - 32) else c

def lowerL (s : List Char) : List Char := s.map lowerChar

/-- Model of Python `s.lower()`. -/
def lowerS (s : String) : String := String.mk (lowerL s.data)

/-- Does the second list start with the first? -/
def startsWithL : List Char → List Char → Bool
  | [], _ => true
  | _ :: _, [] => false
  | a :: as, b :: bs => a == b && startsWithL as bs

/-- Substring containment on character lists (model of Python `needle in hay`). -/
def containsL (needle : List Char) : List Char → Bool
  | [] => needle.isEmpty
  | c :: rest => startsWithL needle (c :: rest) || containsL needle rest

/-- Model of Python `needle in hay` for strings. -/
def containsS (hay needle : String) : Bool := containsL needle.data hay.data

def splitWsAux : List Char → List Char → List String
  | acc, [] => if acc.isEmpty then [] else [String.mk acc.reverse]
  | acc, c :: rest =>
    if c.isWhitespace then
      if acc.isEmpty then splitWsAux [] rest
      else String.mk acc.reverse :: splitWsAux [] rest
    else splitWsAux (c :: acc) rest

/-- Model of Python `s.split()`: split on whitespace runs, no empty tokens. -/
def pySplit (s : String) : List String := splitWsAux [] s.data

/-- Model of Python `s[:n]` for strings. -/
def pyTake (s : String) (n : Nat) : String := String.mk (s.data.take n)

/-- Model of Python `" ".join(ws)`. -/
def joinSpace : List String → String
  | [] => ""
  | [w] => w
  | w :: rest => w ++ " " ++ joinSpace rest

theorem length_mk (l : List Char) : (String.mk l).length = l.length := rfl

theorem data_append (a b : String) : (a ++ b).data = a.data ++ b.data := rfl

theorem length_append' (a b : String) : (a ++ b).length = a.length + b.length := by
  show (a.data ++ b.data).length = a.data.length + b.data.length
  exact List.length_append a.data b.data

/-! ### The result cache (`ModelContextProtocol.__init__`, `_get_cache_key`,
`_get_from_cache`, `_set_cache`, mcp.py lines 56-80)

The Python cache is the dict `self._cache` mapping a string key to a pair
`(timestamp, data)`; `self._cache_timeout` is 300 seconds.  It is modelled as
an association list in which a later `_set_cache` shadows earlier entries,
exactly as dict assignment overwrites.  Only the web adapter's cache traffic
is modelled, so the stored payload type is `List WebRecord`. -/

/-- One record produced by `ModelContextProtocol.search_web` (mcp.py 179-185).
The Python dict key `type` is rendered as the field `rtype`. -/
structure WebRecord where
  title : String
  url : String
  snippet : String
  source : String
  rtype : String
deriving DecidableEq, Repr

def cacheTimeout : Int := 300

abbrev Cache := List (String × Int × List WebRecord)

/-- Lexicographic comparison of strings by character code, as Python `<=`
on strings (used by `sorted(kwargs.items())`). -/
def leCharsL : List Char → List Char → Bool
  | [], _ => true
  | _ :: _, [] => false
  | a :: as, b :: bs =>
    if a.toNat < b.toNat then true
    else if b.toNat < a.toNat then false
    else leCharsL as bs

def leStr (a b : String) : Bool := leCharsL a.data b.data

def insertKw (p : String × String) : List (String × String) → List (String × String)
  | [] => [p]
  | q :: rest => if leStr p.1 q.1 then p :: q :: rest else q :: insertKw p rest

/-- Model of `sorted(kwargs.items())` (stable, by key). -/
def sortKw (l : List (String × String)) : List (String × String) :=
  l.foldr insertKw []

def joinBar : List String → String
  | [] => ""
  | [w] => w
  | w :: rest => w ++ "|" ++ joinBar rest

/-- Model of `ModelContextProtocol._get_cache_key` (mcp.py 62-67). -/
def cacheKey (source : String) (query : String) (kwargs : List (String × String)) : String :=
  joinBar (source :: lowerS query :: (sortKw kwargs).map (fun kv => kv.1 ++ ":" ++ kv.2))

def lookupCache : Cache → String → Option (Int × List WebRecord)
  | [], _ => none
  | (k, ts, d) :: rest, key => if k == key then some (ts, d) else lookupCache rest key

/-- Model of `ModelContextProtocol._get_from_cache` (mcp.py 69-76): return the
stored data when the key is present and the entry is younger than the TTL,
`None` otherwise.  Note the caller, not this function, tests the data for
truthiness. -/
def getFromCache (cache : Cache) (key : String) (now : Int) : Option (List WebRecord) :=
  match lookupCache cache key with
  | some (ts, data) => if now - ts < cacheTimeout then some data else none
  | none => none

/-- Model of `ModelContextProtocol._set_cache` (mcp.py 78-80). -/
def setCache (cache : Cache) (key : String) (now : Int) (data : List WebRecord) : Cache :=
  (key, now, data) :: cache

/-! ### The web adapter `ModelContextProtocol.search_web` (mcp.py 140-195) -/

/-- One entry of the provider's `organic` array; each field is `result.get`-ed
with a default, so absence is modelled by `Option`. -/
structure SerperOrganic where
  title : Option String
  link : Option String
  snippet : Option String
deriving DecidableEq, Repr

/-- The outcome the `requests.post` call to the Serper endpoint would observe:
an HTTP response with a status code and (for 200) the parsed `organic` array
(`none` when the JSON body has no `organic` key), or a raised network
exception (timeout, connection error). -/
inductive SerperResponse where
  | status (code : Nat) (organic : Option (List SerperOrganic))
  | netFailure
deriving DecidableEq, Repr

/-- Formatting of one organic entry (mcp.py 179-185). -/
def formatOrganic (r : SerperOrganic) : WebRecord :=
  { title := r.title.getD "Sem título"
    url := r.link.getD ""
    snippet := r.snippet.getD ""
    source := "Web"
    rtype := "web" }

/-- The observable outcome of one `search_web` call: the returned list, the
cache state after the call, and how many network requests were issued. -/
structure SearchOutcome where
  results : List WebRecord
  cache : Cache
  networkCalls : Nat
deriving DecidableEq, Repr

def webCacheKey (query : String) (numResults : Nat) : String :=
  cacheKey "web" query [("num_results", toString numResults)]

/-- The network path of `search_web` (mcp.py 147-195), reached when the cache
lookup produced nothing truthy: it checks the API key, issues one
`requests.post` (modelled by `response`), formats and caches the results on
HTTP 200, and returns `[]` without caching on any other status or on an
exception.  No retry is performed. -/
def searchWebNetwork (serperAvailable : Bool) (cache : Cache) (key : String)
    (now : Int) (response : SerperResponse) : SearchOutcome :=
  if serperAvailable = false then { results := [], cache := cache, networkCalls := 0 }
  else
    match response with
    | .status code organic =>
      if code == 200 then
        let formatted := match organic with
          | some os => os.map formatOrganic
          | none => []
        { results := formatted, cache := setCache cache key now formatted, networkCalls := 1 }
      else { results := [], cache := cache, networkCalls := 1 }
    | .netFailure => { results := [], cache := cache, networkCalls := 1 }

/-- Model of `ModelContextProtocol.search_web` (mcp.py 140-195).  The code
first consults the cache with `if cached_result:` — an *empty* cached list is
falsy and falls through to the network path. -/
def searchWeb (serperAvailable : Bool) (cache : Cache) (now : Int)
    (response : SerperResponse) (query : String) (numResults : Nat) : SearchOutcome :=
  let key := webCacheKey query numResults
  match getFromCache cache key now with
  | some data =>
    if data.isEmpty then searchWebNetwork serperAvailable cache key now response
    else { results := data, cache := cache, networkCalls := 0 }
  | none => searchWebNetwork serperAvailable cache key now response

theorem lookupCache_setCache_self (cache : Cache) (key : String) (ts : Int)
    (data : List WebRecord) : lookupCache (setCache cache key ts data) key = some (ts, data) := by
  simp [setCache, lookupCache]

/-! ### The retry/backoff helpers of `src/utils/api_utils.py`

`api_utils.search_web` (api_utils.py 30-108) and `call_groq_api`
(api_utils.py 130-215) each wrap one outbound HTTP call in a
`for attempt in range(3)` loop.  The sequence of outcomes the successive
attempts would observe is modelled as an oracle `Nat → _`; the model reports
the result, the number of attempts actually issued, and the list of back-off
sleep durations (in seconds) performed, in order. -/

def maxRetries : Nat := 3

/-- One record produced by `api_utils.search_web` (api_utils.py 77-82); unlike
the MCP variant there is no `type` key and `source` comes from the provider. -/
structure ApiWebRecord where
  title : String
  url : String
  snippet : String
  source : String
deriving DecidableEq, Repr

/-- An organic entry as read by `api_utils.search_web`, including the
provider-supplied `source` field. -/
structure ApiSerperOrganic where
  title : Option String
  link : Option String
  snippet : Option String
  source : Option String
deriving DecidableEq, Repr

inductive ApiSerperResponse where
  | status (code : Nat) (organic : Option (List ApiSerperOrganic))
  | netFailure
deriving DecidableEq, Repr

def formatApiOrganic (r : ApiSerperOrganic) : ApiWebRecord :=
  { title := r.title.getD "No Title"
    url := r.link.getD ""
    snippet := r.snippet.getD ""
    source := r.source.getD "Unknown" }

structure RetryOutcome where
  results : List ApiWebRecord
  attempts : Nat
  sleeps : List Nat
deriving DecidableEq, Repr

/-- The retry loop of `api_utils.search_web` (api_utils.py 61-108).
`attempt` is the Python loop index, `fuel` the remaining loop iterations.
On 200 the organic array is formatted and returned; on 429 the code sleeps
`2 ** attempt` seconds and retries; on any other status it returns `[]` at
once; on a timeout or other exception it sleeps 1 second and retries unless
this was the last attempt; falling out of the loop returns `[]`. -/
def apiSearchWebLoop (oracle : Nat → ApiSerperResponse) :
    Nat → Nat → List Nat → RetryOutcome
  | _, 0, sleeps => { results := [], attempts := maxRetries, sleeps := sleeps }
  | attempt, fuel + 1, sleeps =>
    match oracle attempt with
    | .status code organic =>
      if code == 200 then
        let formatted := match organic with
          | some os => os.map formatApiOrganic
          | none => []
        { results := formatted, attempts := attempt + 1, sleeps := sleeps }
      else if code == 429 then
        apiSearchWebLoop oracle (attempt + 1) fuel (sleeps ++ [2 ^ attempt])
      else
        { results := [], attempts := attempt + 1, sleeps := sleeps }
    | .netFailure =>
      if attempt < maxRetries - 1 then
        apiSearchWebLoop oracle (attempt + 1) fuel (sleeps ++ [1])
      else
        { results := [], attempts := attempt + 1, sleeps := sleeps }

/-- Model of `api_utils.search_web` (api_utils.py 30-108): without an API key
it returns `[]` immediately, otherwise it runs the three-attempt retry loop. -/
def apiSearchWeb (hasKey : Bool) (oracle : Nat → ApiSerperResponse) : RetryOutcome :=
  if hasKey = false then { results := [], attempts := 0, sleeps := [] }
  else apiSearchWebLoop oracle 0 maxRetries []

/-- The outcome one `requests.post` to the Groq chat endpoint would observe:
a status code with, for 200, the stripped message content when the `choices`
array is non-empty (`none` models a 200 body without usable choices), or a
raised network exception. -/
inductive GroqResponse where
  | status (code : Nat) (content : Option String)
  | netFailure
deriving DecidableEq, Repr

structure GroqOutcome where
  text : String
  attempts : Nat
  sleeps : List Nat
deriving DecidableEq, Repr

/-- The retry loop of `call_groq_api` (api_utils.py 170-215): on 200 return
the content (or an error string when `choices` is missing); on 429 sleep
`2 ** attempt` and retry; on 400 return an error string at once; on any other
status return an error string naming the status at once; on a timeout or
exception sleep 2 seconds and retry unless this was the last attempt; on
exhausting the loop return the final failure sentinel. -/
def callGroqApiLoop (oracle : Nat → GroqResponse) : Nat → Nat → List Nat → GroqOutcome
  | _, 0, sleeps =>
    { text := "Erro: Todas as tentativas de chamada da API Groq falharam"
      attempts := maxRetries, sleeps := sleeps }
  | attempt, fuel + 1, sleeps =>
    match oracle attempt with
    | .status code content =>
      if code == 200 then
        match content with
        | some c => { text := c, attempts := attempt + 1, sleeps := sleeps }
        | none => { text := "Erro: Resposta da API Groq inválida", attempts := attempt + 1, sleeps := sleeps }
      else if code == 429 then
        callGroqApiLoop oracle (attempt + 1) fuel (sleeps ++ [2 ^ attempt])
      else if code == 400 then
        { text := "Erro: Requisição inválida para a API Groq", attempts := attempt + 1, sleeps := sleeps }
      else
        { text := "Erro na API Groq: " ++ toString code, attempts := attempt + 1, sleeps := sleeps }
    | .netFailure =>
      if attempt < maxRetries - 1 then
        callGroqApiLoop oracle (attempt + 1) fuel (sleeps ++ [2])
      else
        { text := "Erro: Todas as tentativas de chamada da API Groq falharam"
          attempts := attempt + 1, sleeps := sleeps }

/-- Model of `call_groq_api` (api_utils.py 130-215); prompt/payload building
does not affect control flow and is elided. -/
def callGroqApi (hasKey : Bool) (oracle : Nat → GroqResponse) : GroqOutcome :=
  if hasKey = false then
    { text := "Groq API key não encontrada. Por favor, configure a variável GROQ_API_KEY."
      attempts := 0, sleeps := [] }
  else callGroqApiLoop oracle 0 maxRetries []

/-! ### The aggregator `ModelContextProtocol.get_context` (mcp.py 1487-1550)

`get_context` invokes the four adapters in the fixed order web, arXiv,
Reddit, Product Hunt.  Each call is wrapped in its own `try/except` which
maps any raised exception to `[]`; then `all` is built by extending over
`results.values()` (dict insertion order).  The adapters return records of
differing shapes, all plain dicts in Python; the record type is therefore a
type parameter here, and each adapter call is modelled by its observable
outcome: the returned list (`Except.ok`) or a raised exception
(`Except.error`). -/

structure AdapterOutcomes (α : Type) where
  web : Except Unit (List α)
  arxiv : Except Unit (List α)
  reddit : Except Unit (List α)
  producthunt : Except Unit (List α)

structure AggregationResult (α : Type) where
  web : List α
  arxiv : List α
  reddit : List α
  producthunt : List α
  all : List α
deriving DecidableEq, Repr

/-- The per-source `try/except` of `get_context`: a raised exception becomes
`[]`. -/
def exceptToEmpty {α : Type} : Except Unit (List α) → List α
  | .ok l => l
  | .error _ => []

/-- Model of `ModelContextProtocol.get_context` (mcp.py 1487-1550). -/
def getContext {α : Type} (o : AdapterOutcomes α) : AggregationResult α :=
  let web := exceptToEmpty o.web
  let arxiv := exceptToEmpty o.arxiv
  let reddit := exceptToEmpty o.reddit
  let producthunt := exceptToEmpty o.producthunt
  { web := web
    arxiv := arxiv
    reddit := reddit
    producthunt := producthunt
    all := web ++ arxiv ++ reddit ++ producthunt }

/-! ### The query translator `ModelContextProtocol._translate_to_english`
(mcp.py 533-698)

The function first counts common English function words in the input; with
two or more hits (or a one-word input) it returns the text unchanged.
Otherwise it applies case-insensitive phrase substitutions from two
dictionaries — each guarded by a containment test against the *original*
lowercased text — then a per-word dictionary pass, and finally a hard-coded
fallback when nothing changed.  Dict iteration order is insertion order and
is kept here as list order. -/

def englishIndicators : List String :=
  ["the", "and", "of", "to", "in", "for", "on", "with", "at", "by", "from"]

/-- Model of `sum(1 for word in english_indicators if f" {word} " in f" {text_lower} ")`
(mcp.py 548). -/
def countEnglishIndicators (textLower : String) : Nat :=
  (englishIndicators.filter
    (fun w => containsS (" " ++ textLower ++ " ") (" " ++ w ++ " "))).length

def directTranslations : List (String × String) :=
  [("inteligência artificial na educação", "artificial intelligence in education"),
   ("inteligencia artificial na educacao", "artificial intelligence in education"),
   ("inteligência artificial na saúde", "artificial intelligence in healthcare"),
   ("inteligencia artificial na saude", "artificial intelligence in healthcare"),
   ("inteligência artificial", "artificial intelligence"),
   ("inteligencia artificial", "artificial intelligence"),
   ("aprendizado de máquina", "machine learning"),
   ("aprendizado de maquina", "machine learning"),
   ("aprendizagem profunda", "deep learning"),
   ("blockchain na saúde", "blockchain in healthcare"),
   ("blockchain na saude", "blockchain in healthcare"),
   ("saúde digital", "digital health"),
   ("saude digital", "digital health"),
   ("educação", "education"),
   ("educacao", "education"),
   ("saúde", "health"),
   ("saude", "health"),
   ("tecnologia educacional", "educational technology"),
   ("edtech", "edtech"),
   ("personalização", "personalization"),
   ("personalizacao", "personalization"),
   ("aprendizagem adaptativa", "adaptive learning"),
   ("tutoria automatizada", "automated tutoring"),
   ("análise de dados educacionais", "educational data analysis"),
   ("analise de dados educacionais", "educational data analysis")]

def commonQueries : List (String × String) :=
  [("inteligência artificial", "artificial intelligence"),
   ("inteligencia artificial", "artificial intelligence"),
   ("ia na educação", "ai in education"),
   ("ia na educacao", "ai in education"),
   ("ia na saúde", "ai in healthcare"),
   ("ia na saude", "ai in healthcare"),
   ("blockchain", "blockchain"),
   ("machine learning", "machine learning"),
   ("deep learning", "deep learning"),
   ("educação online", "online education"),
   ("educacao online", "online education"),
   ("ensino a distância", "distance learning"),
   ("ensino a distancia", "distance learning")]

def wordTranslations : List (String × String) :=
  [("educação", "education"), ("educacao", "education"),
   ("saúde", "health"), ("saude", "health"),
   ("tecnologia", "technology"),
   ("inovação", "innovation"), ("inovacao", "innovation"),
   ("personalizada", "personalized"), ("personalizado", "personalized"),
   ("aprendizagem", "learning"), ("ensino", "teaching"),
   ("aluno", "student"), ("alunos", "students"),
   ("professor", "teacher"), ("professores", "teachers"),
   ("escola", "school"), ("universidade", "university"), ("curso", "course"),
   ("avaliação", "assessment"), ("avaliacao", "assessment"),
   ("desempenho", "performance"),
   ("conteúdo", "content"), ("conteudo", "content"),
   ("digital", "digital"), ("online", "online"), ("virtual", "virtual"),
   ("remoto", "remote"), ("remota", "remote"),
   ("plataforma", "platform"), ("sistema", "system"), ("ferramenta", "tool"),
   ("aplicativo", "app"),
   ("aplicação", "application"), ("aplicacao", "application"),
   ("dados", "data"),
   ("análise", "analysis"), ("analise", "analysis"),
   ("pesquisa", "research"), ("estudo", "study"),
   ("método", "method"), ("metodo", "method")]

/-- Case-insensitive replace-all: model of
`re.compile(re.escape(pt), re.IGNORECASE).sub(en, text)`, matching
non-overlapping occurrences left to right.  `fuel` is the length of the text
being scanned, which bounds the recursion. -/
def ciReplaceGo (pt en : List Char) : Nat → List Char → List Char
  | _, [] => []
  | 0, txt => txt
  | fuel + 1, c :: rest =>
    if startsWithL pt (lowerL (c :: rest)) then
      en ++ ciReplaceGo pt en fuel ((c :: rest).drop pt.length)
    else c :: ciReplaceGo pt en fuel rest

def ciReplaceAll (txt pt en : String) : String :=
  String.mk (ciReplaceGo pt.data en.data txt.data.length txt.data)

/-- One dictionary pass of `_translate_to_english` (mcp.py 582-587 and
606-609): for each pair in order, if the phrase occurs in the *original*
lowercased text, substitute case-insensitively in the current text. -/
def applyPhraseSubs (subs : List (String × String)) (textLower0 txt : String) : String :=
  subs.foldl
    (fun t pe => if containsS textLower0 pe.1 then ciReplaceAll t pe.1 pe.2 else t) txt

/-- Model of Python `en_word.capitalize()`. -/
def capitalizeEn (w : String) : String :=
  match w.data with
  | [] => ""
  | c :: cs => String.mk (upperChar c :: lowerL cs)

/-- Model of `word[0].isupper()`; `word` comes from `text.split()` and is
never empty. -/
def isUpperFirst (word : String) : Bool :=
  match word.data with
  | [] => false
  | c :: _ => 'A' ≤ c ∧ c ≤ 'Z'

/-- First dictionary entry matching the lowercased word exactly or with a
plural `s` (mcp.py 665-666). -/
def findWordTrans (wl : String) : List (String × String) → Option String
  | [] => none
  | (pt, en) :: rest =>
    if wl == pt || wl == pt ++ "s" then some en else findWordTrans wl rest

/-- The per-word pass of `_translate_to_english` (mcp.py 657-679). -/
def translateWord (word : String) : String :=
  match findWordTrans (lowerS word) wordTranslations with
  | some en => if isUpperFirst word then capitalizeEn en else en
  | none => word

/-- Model of `ModelContextProtocol._translate_to_english` (mcp.py 533-698). -/
def translateToEnglish (text : String) : String :=
  let textLower := lowerS text
  if 2 ≤ countEnglishIndicators textLower ∨ (pySplit text).length ≤ 1 then text
  else
    let text1 := applyPhraseSubs directTranslations textLower text
    let text2 := applyPhraseSubs commonQueries textLower text1
    let translatedText := joinSpace ((pySplit text2).map translateWord)
    if translatedText == text2 then
      if containsS textLower "inteligência artificial" ∨
          containsS textLower "inteligencia artificial" then
        if containsS textLower "educação" ∨ containsS textLower "educacao" then
          "artificial intelligence in education"
        else if containsS textLower "saúde" ∨ containsS textLower "saude" then
          "artificial intelligence in healthcare"
        else "artificial intelligence"
      else if containsS textLower "blockchain" then
        if containsS textLower "saúde" ∨ containsS textLower "saude" then
          "blockchain in healthcare"
        else "blockchain technology"
      else translatedText
    else translatedText

/-! ### Stable sorting

Python `list.sort` / `sorted` are stable; with `reverse=True` elements with
equal keys keep their original relative order.  Insertion sort with a
"may come before" test that is true on ties reproduces this. -/

def insertSorted {α : Type} (le : α → α → Bool) (x : α) : List α → List α
  | [] => [x]
  | y :: ys => if le x y then x :: y :: ys else y :: insertSorted le x ys

def insertionSort {α : Type} (le : α → α → Bool) : List α → List α
  | [] => []
  | x :: xs => insertSorted le x (insertionSort le xs)

/-! ### Discussion-board relevance and formatting
(`ModelContextProtocol._calculate_reddit_relevance`, mcp.py 1411-1485, and
`ModelContextProtocol._format_reddit_results`, mcp.py 1342-1409) -/

/-- The `data` payload of one Reddit search result child.  Field lookups in
the source use `post.get(..., default)`; fields are modelled as already
defaulted. -/
structure RedditPost where
  title : String
  selftext : String
  permalink : String
  subreddit : String
  score : Int
  numComments : Int
  createdUtc : Int
deriving DecidableEq, Repr

def pyDedupGo (seen : List String) : List String → List String
  | [] => []
  | x :: xs => if seen.contains x then pyDedupGo seen xs else x :: pyDedupGo (x :: seen) xs

/-- Model of `{term.lower() for term in original_query.split() if len(term) > 3}`
(mcp.py 1360).  The Python value is a set whose iteration order is
unspecified; it is modelled as the deduplicated list in first-occurrence
order, and no theorem below depends on the enumeration order. -/
def queryTerms (q : String) : List String :=
  pyDedupGo [] (((pySplit q).filter (fun t => 3 < t.length)).map lowerS)

def assocFind {β : Type} (k : String) : List (String × β) → Option β
  | [] => none
  | (k2, v) :: rest => if k == k2 then some v else assocFind k rest

/-- The `relevant_subreddits` topic dictionary (mcp.py 1437-1444). -/
def relevantSubreddits : List (String × List String) :=
  [("ai", ["artificial", "machinelearning", "ainews", "singularity", "deeplearning", "datascience"]),
   ("intelligence", ["artificial", "machinelearning", "ainews", "singularity", "deeplearning"]),
   ("education", ["education", "edtech", "onlinecourses", "teaching", "learnprogramming"]),
   ("health", ["healthtech", "medicine", "healthcare", "health", "medical"]),
   ("blockchain", ["cryptotechnology", "blockchain", "cryptocurrency", "bitcoin"]),
   ("technology", ["technology", "tech", "futurology", "gadgets"])]

/-- The subreddit loop of `_calculate_reddit_relevance` (mcp.py 1447-1451):
the 0.3 bonus is added at most once, for the first query term that is a
dictionary key whose subreddit list contains the post's subreddit. -/
def subredditHit (subredditLower : String) : List String → Bool
  | [] => false
  | t :: rest =>
    match assocFind t relevantSubreddits with
    | some srs => if srs.contains subredditLower then true else subredditHit subredditLower rest
    | none => subredditHit subredditLower rest

/-- Number of query terms occurring (as substrings) in `hay`. -/
def countMatches (terms : List String) (hay : String) : Nat :=
  (terms.filter (fun t => containsS hay t)).length

/-- The two-term phrases `" ".join(list(query_terms)[i:i+2])` for
`i in range(len(query_terms) - 1)` (mcp.py 1464-1465). -/
def phrasesOf (terms : List String) : List String :=
  (List.range (terms.length - 1)).map (fun i => joinSpace ((terms.drop i).take 2))

def qualityIndicators : List String :=
  ["research", "study", "analysis", "report", "survey", "data", "statistics",
   "expert", "professional", "official", "review", "comparison", "guide"]

def qualityMatches (titleLower contentLower : String) : Nat :=
  (qualityIndicators.filter
    (fun ind => containsS titleLower ind || containsS contentLower ind)).length

/-- Model of `ModelContextProtocol._calculate_reddit_relevance`
(mcp.py 1411-1485). -/
def calculateRedditRelevance (title content subreddit : String)
    (qterms : List String) : ℚ :=
  if qterms.isEmpty then 1/2
  else
    let titleLower := lowerS title
    let contentLower := lowerS content
    let subredditLower := lowerS subreddit
    let titleMatches := countMatches qterms titleLower
    let contentMatches := countMatches qterms contentLower
    let n : ℚ := qterms.length
    let phrases := (phrasesOf qterms).filter (fun p => 5 < p.length)
    let score : ℚ :=
      (if subredditHit subredditLower qterms then 3/10 else 0)
      + (if 0 < titleMatches then 4/10 * (titleMatches : ℚ) / n else 0)
      + (if 0 < contentMatches then 2/10 * (contentMatches : ℚ) / n else 0)
      + 2/10 * ((phrases.filter (fun p => containsS titleLower p)).length : ℚ)
      + 1/10 * ((phrases.filter (fun p => containsS contentLower p)).length : ℚ)
      + (if content.length < 50 ∧ titleMatches = 0 then -(2/10) else 0)
      + (let qm := qualityMatches titleLower contentLower
         if 0 < qm then 1/10 * ((min qm 3 : Nat) : ℚ) / 3 else 0)
    max 0 (min 1 score)

/-- Snippet truncation shared by the Reddit formatting paths (mcp.py
1374-1375, improved_filtering.py 109-110): over 500 characters, keep 497 and
append an ellipsis. -/
def processSnippet (s : String) : String :=
  if 500 < s.length then pyTake s 497 ++ "..." else s

/-- One record produced by `_format_reddit_results` (mcp.py 1385-1396). -/
structure RedditRecord where
  title : String
  url : String
  snippet : String
  createdDate : String
  subreddit : String
  score : Int
  numComments : Int
  relevance : ℚ
  source : String
  rtype : String
deriving DecidableEq, Repr

/-- Formatting of one valid post (mcp.py 1366-1396).  `fmtDate` models
`datetime.fromtimestamp(created_utc).strftime`. -/
def formatOneRedditPost (fmtDate : Int → String) (qterms : List String)
    (p : RedditPost) : RedditRecord :=
  let snippetRaw := if p.selftext == "" then p.title else p.selftext
  let snippet := processSnippet snippetRaw
  { title := p.title
    url := "https://www.reddit.com" ++ p.permalink
    snippet := snippet
    createdDate := fmtDate p.createdUtc
    subreddit := p.subreddit
    score := p.score
    numComments := p.numComments
    relevance := calculateRedditRelevance p.title snippet p.subreddit qterms
    source := "Reddit"
    rtype := "social" }

/-- Sort order of mcp.py 1399: descending by `(relevance, score)`, stable. -/
def redditLe (a b : RedditRecord) : Bool :=
  decide (b.relevance < a.relevance ∨ (b.relevance = a.relevance ∧ b.score ≤ a.score))

/-- Posts are the children of the response; a `none` models a child without a
`data` key, which the loop skips. -/
def redditFormattedList (fmtDate : Int → String) (posts : List (Option RedditPost))
    (q : String) : List RedditRecord :=
  posts.filterMap (fun p? => p?.map (formatOneRedditPost fmtDate (queryTerms q)))

def redditSortedList (fmtDate : Int → String) (posts : List (Option RedditPost))
    (q : String) : List RedditRecord :=
  insertionSort redditLe (redditFormattedList fmtDate posts q)

def redditFilteredList (fmtDate : Int → String) (posts : List (Option RedditPost))
    (q : String) : List RedditRecord :=
  (redditSortedList fmtDate posts q).filter (fun r => decide ((3:ℚ)/10 < r.relevance))

/-- Model of `ModelContextProtocol._format_reddit_results` (mcp.py 1342-1409):
format every valid post, sort descending by `(relevance, score)`, keep the
records with relevance above 0.3 — but fall back to the whole sorted list
when fewer than `max_results // 2` records survive — and truncate to
`max_results`. -/
def formatRedditResults (fmtDate : Int → String) (posts : List (Option RedditPost))
    (maxResults : Nat) (q : String) : List RedditRecord :=
  let sorted := redditSortedList fmtDate posts q
  let filtered := redditFilteredList fmtDate posts q
  (if filtered.length < maxResults / 2 then sorted else filtered).take maxResults

/-! ### The improved discussion-board filter
(`filter_reddit_results`, improved_filtering.py 6-131) -/

def aiTermsIF : List String :=
  ["artificial intelligence", "ai ", "machine learning", "deep learning", "neural network"]

def healthTermsIF : List String :=
  ["health", "healthcare", "medical", "medicine", "clinical", "hospital",
   "patient", "diagnosis", "treatment", "doctor", "physician"]

def healthAiKeywords : List String :=
  ["artificial intelligence", "ai ", "machine learning", "ml", "deep learning",
   "neural network", "health", "healthcare", "medical", "medicine", "clinical",
   "hospital", "patient", "diagnosis", "treatment", "doctor", "physician"]

def splitDotGo : List Char → List String
  | [] => [""]
  | c :: rest =>
    if c = '.' then "" :: splitDotGo rest
    else
      match splitDotGo rest with
      | [] => [String.mk [c]]
      | h :: t => String.mk (c :: h.data) :: t

/-- Model of Python `s.split('.')` (keeps empty pieces). -/
def splitDot (s : String) : List String := splitDotGo s.data

/-- Model of improved_filtering.py 22-23: the query concerns AI in
healthcare. -/
def isHealthAiQuery (query : String) : Bool :=
  let ql := lowerS query
  (containsS ql "artificial intelligence" || (pySplit ql).contains "ai")
  && (["health", "healthcare", "medical"].any (fun t => containsS ql t))

/-- One record produced by `filter_reddit_results`
(improved_filtering.py 113-125); `created_date` carries the raw
`created_utc` integer in this module. -/
structure FilteredRecord where
  title : String
  url : String
  originalUrl : String
  snippet : String
  createdDate : Int
  subreddit : String
  score : Int
  numComments : Int
  relevanceScore : Int
  source : String
  rtype : String
deriving DecidableEq, Repr

def buildFilteredRecord (p : RedditPost) (score : Int) : FilteredRecord :=
  let snippetRaw := if p.selftext == "" then p.title else p.selftext
  let snippet := processSnippet snippetRaw
  { title := p.title
    url := "https://www.reddit.com" ++ p.permalink
    originalUrl := "https://www.reddit.com" ++ p.permalink
    snippet := snippet
    createdDate := p.createdUtc
    subreddit := p.subreddit
    score := p.score
    numComments := p.numComments
    relevanceScore := score
    source := "Reddit"
    rtype := "social" }

/-- The searchable text of one post, `title + ' ' + selftext` lowercased
(improved_filtering.py 39-41). -/
def searchTextIF (p : RedditPost) : String :=
  lowerS p.title ++ " " ++ lowerS p.selftext

def hasAiTermIF (p : RedditPost) : Bool :=
  aiTermsIF.any (fun t => containsS (searchTextIF p) t)

def hasHealthTermIF (p : RedditPost) : Bool :=
  healthTermsIF.any (fun t => containsS (searchTextIF p) t)

/-- The relevance score computed for a post on a health-AI query
(improved_filtering.py 59-89). -/
def healthAiScore (p : RedditPost) : Int :=
  let title := lowerS p.title
  let sentences := splitDot (searchTextIF p)
  let bothInSameSentence := sentences.any (fun s =>
    aiTermsIF.any (fun t => containsS s t) && healthTermsIF.any (fun t => containsS s t))
  let base : Int := if bothInSameSentence then 2 else 1
  let kwCount : Int :=
    ((healthAiKeywords.filter (fun k => containsS (searchTextIF p) k)).length : Int)
  let titleAi := aiTermsIF.any (fun t => containsS title t)
  let titleHealth := healthTermsIF.any (fun t => containsS title t)
  base + kwCount + (if titleAi then 2 else 0)
    + (if titleHealth then 2 else 0) + (if titleAi && titleHealth then 3 else 0)

/-- The relevance score on any other query: the number of query keywords
occurring in the post text (improved_filtering.py 96-97). -/
def genericQueryScore (query : String) (p : RedditPost) : Int :=
  (((pySplit (lowerS query)).filter (fun k => containsS (searchTextIF p) k)).length : Int)

/-- The per-post body of the `filter_reddit_results` loop
(improved_filtering.py 32-125); `none` means the post is skipped. -/
def processFilteredPost (query : String) (p : RedditPost) : Option FilteredRecord :=
  if isHealthAiQuery query then
    if !(hasAiTermIF p && hasHealthTermIF p) then none
    else if healthAiScore p < 3 then none
    else some (buildFilteredRecord p (healthAiScore p))
  else
    if genericQueryScore query p = 0 ∧ 1 < (pySplit (lowerS query)).length then none
    else some (buildFilteredRecord p (genericQueryScore query p))

def filteredLe (a b : FilteredRecord) : Bool :=
  decide (b.relevanceScore ≤ a.relevanceScore)

/-- Model of `filter_reddit_results` (improved_filtering.py 6-131). -/
def filterRedditResults (posts : List (Option RedditPost)) (query : String)
    (maxResults : Nat) : List FilteredRecord :=
  let records := posts.filterMap (fun p? => p?.bind (processFilteredPost query))
  (insertionSort filteredLe records).take maxResults

/-! ### The product-directory ranker
(`ModelContextProtocol._rank_producthunt_results`, mcp.py 730-771)

The Python loop executes `result['relevance_score'] = score` on each input
dict — an in-place mutation — and then returns `sorted(results, ...)`, a new
list holding the *same* dict objects.  To make the aliasing observable the
records live in an explicit store (address → record) and the ranker maps a
list of addresses to a mutated store plus the sorted address list. -/

/-- One record produced by `_format_producthunt_result` (mcp.py 517-528);
`relevance_score` is absent (`none`) until the ranker assigns it. -/
structure PHRecord where
  title : String
  url : String
  website : String
  snippet : String
  createdDate : String
  votes : Int
  comments : Int
  topics : List String
  relevanceScore : Option ℚ
deriving DecidableEq, Repr

abbrev PHStore := Nat → PHRecord

def updateStore (st : PHStore) (a : Nat) (r : PHRecord) : PHStore :=
  fun x => if x = a then r else st x

def phSearchText (r : PHRecord) : String :=
  lowerS r.title ++ " " ++ lowerS r.snippet ++ " " ++ lowerS (joinSpace r.topics)

/-- The keyword loop of `_rank_producthunt_results` (mcp.py 743-748). -/
def phKeywordScore (r : PHRecord) (keywords : List String) : ℚ :=
  keywords.foldl
    (fun acc kw =>
      if containsS (phSearchText r) (lowerS kw) then
        acc + 1 + (if containsS (lowerS r.title) (lowerS kw) then 2 else 0)
      else acc) 0

/-- The score assigned to one record (mcp.py 732-768).  `daysOld` models
`(datetime.now() - strptime(created_date)).days`, with `none` for a parse
failure (the `except: pass`). -/
def phScore (daysOld : String → Option Int) (r : PHRecord) (keywords : List String) : ℚ :=
  phKeywordScore r keywords
  + (if 0 < r.votes then min ((r.votes : ℚ) / 100) 5 else 0)
  + (if r.createdDate == "" then 0
     else
       match daysOld r.createdDate with
       | some d => if d < 30 then 3 else if d < 90 then 1 else 0
       | none => 0)

def setRelevancePH (r : PHRecord) (s : ℚ) : PHRecord :=
  { r with relevanceScore := some s }

/-- The mutation loop: `result['relevance_score'] = score` for each input
record, in order. -/
def mutateStore (daysOld : String → Option Int) (keywords : List String) :
    List Nat → PHStore → PHStore
  | [], st => st
  | a :: rest, st =>
    mutateStore daysOld keywords rest
      (updateStore st a (setRelevancePH (st a) (phScore daysOld (st a) keywords)))

/-- Sort order of mcp.py 771: descending by `relevance_score` (default 0),
stable. -/
def phLe (st : PHStore) (a b : Nat) : Bool :=
  decide ((st b).relevanceScore.getD 0 ≤ (st a).relevanceScore.getD 0)

/-- Model of `ModelContextProtocol._rank_producthunt_results`
(mcp.py 730-771): mutate every input record in place, then return the same
records sorted by the freshly assigned score. -/
def rankProducthuntResults (daysOld : String → Option Int) (store : PHStore)
    (addrs : List Nat) (keywords : List String) : PHStore × List Nat :=
  let newStore := mutateStore daysOld keywords addrs store
  (newStore, insertionSort (phLe newStore) addrs)

/-! ### Concrete fixtures used in witnesses and counterexamples -/

/-- A minimal Reddit post. -/
def simplePost : RedditPost :=
  { title := "hello", selftext := "world", permalink := "/r/h", subreddit := ""
    score := 1, numComments := 0, createdUtc := 0 }

/-- The spec's example of an off-topic but popular record. -/
def laptopPost : RedditPost :=
  { title := "Best budget laptops 2024", selftext := "...", permalink := "/r/laptops/abc"
    subreddit := "laptops", score := 5000, numComments := 100, createdUtc := 1700000000 }

/-- A post that mentions both an AI-family and a health-family term. -/
def aiHealthPost : RedditPost :=
  { title := "ai in healthcare", selftext := "machine learning helps patient diagnosis."
    permalink := "/r/health/xyz", subreddit := "healthcare", score := 10, numComments := 2
    createdUtc := 0 }

/-- A Product Hunt record, fresh from the adapter (no relevance score yet). -/
def phSample : PHRecord :=
  { title := "AI Assistant", url := "https://ph.example/1", website := ""
    snippet := "An ai tool", createdDate := "", votes := 0, comments := 0
    topics := [], relevanceScore := none }

/-- Does the string end with the three-dot ellipsis marker? -/
def endsWithEllipsis (s : String) : Bool :=
  s.data.drop (s.data.length - 3) == "...".data

/-! ## Shared lemmas -/

theorem mem_insertSorted {α : Type} (le : α → α → Bool) (x y : α) (l : List α) :
    y ∈ insertSorted le x l ↔ y = x ∨ y ∈ l := by
  induction l with
  | nil => simp [insertSorted]
  | cons z zs ih =>
    cases h : le x z with
    | true => simp [insertSorted, h]
    | false =>
      simp only [insertSorted, h, Bool.false_eq_true, if_false, List.mem_cons, ih]
      tauto

theorem mem_insertionSort {α : Type} (le : α → α → Bool) (y : α) (l : List α) :
    y ∈ insertionSort le l ↔ y ∈ l := by
  induction l with
  | nil => simp [insertionSort]
  | cons x xs ih => simp [insertionSort, mem_insertSorted, ih]

theorem perm_insertSorted {α : Type} (le : α → α → Bool) (x : α) (l : List α) :
    List.Perm (insertSorted le x l) (x :: l) := by
  induction l with
  | nil => simp [insertSorted]
  | cons z zs ih =>
    cases h : le x z with
    | true => simp [insertSorted, h]
    | false =>
      simp only [insertSorted, h, Bool.false_eq_true, if_false]
      exact (ih.cons z).trans (List.Perm.swap x z zs)

theorem perm_insertionSort {α : Type} (le : α → α → Bool) (l : List α) :
    List.Perm (insertionSort le l) l := by
  induction l with
  | nil => simp [insertionSort]
  | cons x xs ih => exact (perm_insertSorted le x (insertionSort le xs)).trans (ih.cons x)

/-! ## C1 — graceful degradation of `get_context` -/

/-- C1: `get_context` is a total function of the adapter outcomes (it never
raises), and when every adapter either raises or returns an empty list — as
happens when every network call fails or times out, since each adapter
catches its own errors and returns `[]` — the aggregation result maps each
of the four sources to `[]` and the `all` key to `[]`. -/
theorem c1_get_context_total_failure_empty (α : Type) (o : AdapterOutcomes α)
    (hw : o.web = .error () ∨ o.web = .ok [])
    (ha : o.arxiv = .error () ∨ o.arxiv = .ok [])
    (hr : o.reddit = .error () ∨ o.reddit = .ok [])
    (hp : o.producthunt = .error () ∨ o.producthunt = .ok []) :
    getContext o = { web := [], arxiv := [], reddit := [], producthunt := [], all := [] } := by
  have ew : exceptToEmpty o.web = [] := by rcases hw with h | h <;> simp [h, exceptToEmpty]
  have ea : exceptToEmpty o.arxiv = [] := by rcases ha with h | h <;> simp [h, exceptToEmpty]
  have er : exceptToEmpty o.reddit = [] := by rcases hr with h | h <;> simp [h, exceptToEmpty]
  have ep : exceptToEmpty o.producthunt = [] := by rcases hp with h | h <;> simp [h, exceptToEmpty]
  simp [getContext, ew, ea, er, ep]

/-- Witness for C1: all four adapters raise. -/
theorem c1_witness :
    getContext (⟨.error (), .error (), .error (), .error ()⟩ : AdapterOutcomes Nat)
      = { web := [], arxiv := [], reddit := [], producthunt := [], all := [] } :=
  c1_get_context_total_failure_empty Nat _
    (Or.inl rfl) (Or.inl rfl) (Or.inl rfl) (Or.inl rfl)

/-! ## C2 — `all` is the concatenation of the per-source lists -/

/-- C2: the `all` list of every aggregation result equals the concatenation
of the per-source lists in the fixed order web, arXiv, Reddit, Product Hunt
(no global re-ranking), its length is the sum of the per-source lengths, and
when exactly one adapter (here arXiv) fails while the others return records,
`all` is exactly the concatenation of the succeeding adapters' records. -/
theorem c2_all_is_concatenation (α : Type) (o : AdapterOutcomes α) :
    (getContext o).all
        = (getContext o).web ++ (getContext o).arxiv ++ (getContext o).reddit
          ++ (getContext o).producthunt
    ∧ (getContext o).all.length
        = (getContext o).web.length + (getContext o).arxiv.length
          + (getContext o).reddit.length + (getContext o).producthunt.length
    ∧ (∀ w r p, o.web = .ok w → o.arxiv = .error () → o.reddit = .ok r →
        o.producthunt = .ok p →
        (getContext o).all = w ++ r ++ p
        ∧ (getContext o).all.length = w.length + r.length + p.length) := by
  refine ⟨by simp [getContext], by simp [getContext]; omega, ?_⟩
  intro w r p hw ha hr hp
  constructor
  · simp [getContext, hw, ha, hr, hp, exceptToEmpty, List.append_assoc]
  · simp [getContext, hw, ha, hr, hp, exceptToEmpty]
    omega

/-- Witness for C2, matching the spec's example counts Web=3, Preprint=0
(failed), Discussion=2, Directory=1: `all` has the 6 records in order. -/
theorem c2_witness :
    (getContext (⟨.ok [1, 2, 3], .error (), .ok [4, 5], .ok [6]⟩ : AdapterOutcomes Nat)).all
        = [1, 2, 3] ++ [4, 5] ++ [6]
    ∧ (getContext (⟨.ok [1, 2, 3], .error (), .ok [4, 5], .ok [6]⟩ : AdapterOutcomes Nat)).all.length
        = 6 :=
  have h := (c2_all_is_concatenation Nat ⟨.ok [1, 2, 3], .error (), .ok [4, 5], .ok [6]⟩).2.2
    [1, 2, 3] [4, 5] [6] rfl rfl rfl rfl
  ⟨h.1, h.2⟩

/-! ## C10 — an empty cached list behaves as a cache miss -/

/-- C10: `search_web` tests the cached data for truthiness, not presence:
when the cache holds an unexpired entry whose value is the empty list, the
adapter reissues its network call; when the unexpired entry is non-empty, it
answers from the cache with no network call. -/
theorem c10_empty_cache_entry_is_miss (cache : Cache) (now : Int) (q : String)
    (n : Nat) (resp : SerperResponse) :
    (getFromCache cache (webCacheKey q n) now = some [] →
      (searchWeb true cache now resp q n).networkCalls = 1)
    ∧ (∀ d, getFromCache cache (webCacheKey q n) now = some d → d ≠ [] →
      searchWeb true cache now resp q n
        = { results := d, cache := cache, networkCalls := 0 }) := by
  constructor
  · intro h
    have : searchWeb true cache now resp q n
        = searchWebNetwork true cache (webCacheKey q n) now resp := by
      simp [searchWeb, h]
    rw [this]
    rcases resp with ⟨code, organic⟩ | _
    · by_cases hc : (code == 200) = true <;> simp [searchWebNetwork, hc]
    · simp [searchWebNetwork]
  · intro d h hd
    simp [searchWeb, h, hd]

/-- Witness for C10: a cache holding an unexpired empty list for the key
forces a network call, while a non-empty entry is served with none. -/
theorem c10_witness :
    (searchWeb true [(webCacheKey "x" 5, 0, [])] 10 .netFailure "x" 5).networkCalls = 1
    ∧ searchWeb true [(webCacheKey "x" 5, 0, [⟨"t", "u", "s", "Web", "web"⟩])] 10
        .netFailure "x" 5
      = { results := [⟨"t", "u", "s", "Web", "web"⟩]
          cache := [(webCacheKey "x" 5, 0, [⟨"t", "u", "s", "Web", "web"⟩])]
          networkCalls := 0 } :=
  ⟨(c10_empty_cache_entry_is_miss [(webCacheKey "x" 5, 0, [])] 10 "x" 5 .netFailure).1
      (by norm_num [getFromCache, lookupCache, cacheTimeout]),
   (c10_empty_cache_entry_is_miss [(webCacheKey "x" 5, 0, [⟨"t", "u", "s", "Web", "web"⟩])]
      10 "x" 5 .netFailure).2 [⟨"t", "u", "s", "Web", "web"⟩]
      (by norm_num [getFromCache, lookupCache, cacheTimeout]) (by simp)⟩

/-! ## C3 — idempotence under cache hit -/

/-- Counterexample to C3 as stated: two `search_web` calls with identical
arguments, the second 10 seconds after the first (well inside the 300-second
TTL).  The first call succeeds over the network with an *empty* result list
and caches it; because the cache lookup tests the data for truthiness, the
second call issues a network request all the same — the claim's "issues no
network call" fails. -/
theorem c3_counterexample :
    (searchWeb true
        (searchWeb true [] 0 (.status 200 (some [])) "blockchain in healthcare" 5).cache
        10 (.status 200 (some [])) "blockchain in healthcare" 5).networkCalls = 1 := by
  have h1 : (searchWeb true [] 0 (.status 200 (some [])) "blockchain in healthcare" 5).cache
      = [(webCacheKey "blockchain in healthcare" 5, 0, [])] := by
    simp [searchWeb, getFromCache, lookupCache, searchWebNetwork, setCache]
  rw [h1]
  have h2 : getFromCache [(webCacheKey "blockchain in healthcare" 5, 0, [])]
      (webCacheKey "blockchain in healthcare" 5) 10 = some [] := by
    norm_num [getFromCache, lookupCache, cacheTimeout]
  simp [searchWeb, h2, searchWebNetwork]

/-- C3 amended: when the first call is a cache miss whose network fetch
succeeds with a *non-empty* record list, a second call with identical
arguments within the TTL window of the first fetch issues no network call
and returns the identical records (same order, same contents).  When the
first call produced an empty list, the second call reissues the network
request (see the counterexample). -/
theorem c3_amended_cache_hit (cache : Cache) (now1 now2 : Int) (q : String)
    (n : Nat) (os : List SerperOrganic) (resp2 : SerperResponse)
    (hmiss : getFromCache cache (webCacheKey q n) now1 = none)
    (hne : os ≠ [])
    (httl : now2 - now1 < cacheTimeout) :
    (searchWeb true (searchWeb true cache now1 (.status 200 (some os)) q n).cache
        now2 resp2 q n).results
      = (searchWeb true cache now1 (.status 200 (some os)) q n).results
    ∧ (searchWeb true (searchWeb true cache now1 (.status 200 (some os)) q n).cache
        now2 resp2 q n).networkCalls = 0 := by
  have hfirst : searchWeb true cache now1 (.status 200 (some os)) q n
      = { results := os.map formatOrganic
          cache := setCache cache (webCacheKey q n) now1 (os.map formatOrganic)
          networkCalls := 1 } := by
    simp [searchWeb, hmiss, searchWebNetwork]
  have hlook : getFromCache (setCache cache (webCacheKey q n) now1 (os.map formatOrganic))
      (webCacheKey q n) now2 = some (os.map formatOrganic) := by
    simp [getFromCache, lookupCache_setCache_self, httl]
  have hnonempty : (os.map formatOrganic).isEmpty = false := by
    cases os with
    | nil => exact absurd rfl hne
    | cons a l => rfl
  rw [hfirst]
  simp [searchWeb, hlook, hnonempty]

/-- Witness for C3 (amended): a concrete miss-then-hit pair of calls. -/
theorem c3_witness :
    getFromCache [] (webCacheKey "blockchain in healthcare" 5) 0 = none
    ∧ ((searchWeb true
          (searchWeb true [] 0 (.status 200 (some [⟨some "t", some "u", some "s"⟩]))
            "blockchain in healthcare" 5).cache
          10 .netFailure "blockchain in healthcare" 5).results
        = (searchWeb true [] 0 (.status 200 (some [⟨some "t", some "u", some "s"⟩]))
            "blockchain in healthcare" 5).results
      ∧ (searchWeb true
          (searchWeb true [] 0 (.status 200 (some [⟨some "t", some "u", some "s"⟩]))
            "blockchain in healthcare" 5).cache
          10 .netFailure "blockchain in healthcare" 5).networkCalls = 0) :=
  ⟨rfl,
   c3_amended_cache_hit [] 0 10 "blockchain in healthcare" 5
     [⟨some "t", some "u", some "s"⟩] .netFailure rfl (by simp)
     (by norm_num [cacheTimeout])⟩

/-! ## C4 — the retry/backoff policy -/

theorem searchWebNetwork_calls_le (avail : Bool) (cache : Cache) (key : String)
    (now : Int) (resp : SerperResponse) :
    (searchWebNetwork avail cache key now resp).networkCalls ≤ 1 := by
  cases avail with
  | false => simp [searchWebNetwork]
  | true =>
    rcases resp with ⟨code, organic⟩ | _
    · by_cases hc : (code == 200) = true <;> simp [searchWebNetwork, hc]
    · simp [searchWebNetwork]

theorem apiSearchWebLoop_attempts_le (oracle : Nat → ApiSerperResponse) :
    ∀ fuel attempt sleeps,
      (apiSearchWebLoop oracle attempt fuel sleeps).attempts ≤ max (attempt + fuel) 3 := by
  intro fuel
  induction fuel with
  | zero =>
    intro attempt sleeps
    simp [apiSearchWebLoop, maxRetries]
  | succ fuel ih =>
    intro attempt sleeps
    rw [apiSearchWebLoop]
    rcases h : oracle attempt with ⟨code, organic⟩ | _
    · by_cases h200 : (code == 200) = true
      · simp only [h200, if_true]
        have : attempt + 1 ≤ attempt + (fuel + 1) := by omega
        exact le_max_of_le_left this
      · simp only [h200, Bool.false_eq_true, if_false]
        by_cases h429 : (code == 429) = true
        · simp only [h429, if_true]
          have := ih (attempt + 1) (sleeps ++ [2 ^ attempt])
          have heq : attempt + 1 + fuel = attempt + (fuel + 1) := by omega
          rw [heq] at this
          exact this
        · simp only [h429, Bool.false_eq_true, if_false]
          exact le_max_of_le_left (by omega)
    · by_cases hlast : attempt < maxRetries - 1
      · simp only [hlast, if_true]
        have := ih (attempt + 1) (sleeps ++ [1])
        have heq : attempt + 1 + fuel = attempt + (fuel + 1) := by omega
        rw [heq] at this
        exact this
      · simp only [hlast, if_false]
        exact le_max_of_le_left (by omega)

/-- Counterexample to C4 as stated: the MCP web adapter's network call
(`ModelContextProtocol.search_web`) is *not* wrapped by the retry policy.  On
an HTTP 429 response it issues exactly one network request — it does not
sleep and retry as the claimed uniform policy requires — and returns `[]`. -/
theorem c4_counterexample :
    (searchWeb true [] 0 (.status 429 none) "q" 5).networkCalls = 1
    ∧ ¬ 2 ≤ (searchWeb true [] 0 (.status 429 none) "q" 5).networkCalls := by
  have h : (searchWeb true [] 0 (.status 429 none) "q" 5).networkCalls = 1 := by
    simp [searchWeb, getFromCache, lookupCache, searchWebNetwork]
  refine ⟨h, ?_⟩
  rw [h]
  omega

/-- C4 amended: the retry policy — at most 3 attempts, `2 ** attempt` back-off
sleep on HTTP 429, a fixed short sleep and retry on timeout, immediate return
on any other non-2xx status, and a failure sentinel after exhaustion — is
implemented by the helpers `api_utils.search_web` and
`api_utils.call_groq_api`, but *not* by the MCP source adapters, whose
network calls issue a single attempt and return the failure sentinel
immediately on any error, including 429. -/
theorem c4_retry_policy_amended :
    (∀ oracle, (apiSearchWeb true oracle).attempts ≤ 3)
    ∧ apiSearchWeb true (fun _ => .status 429 none)
        = { results := [], attempts := 3, sleeps := [1, 2, 4] }
    ∧ (∀ oracle (code : Nat) organic, oracle 0 = .status code organic →
        code ≠ 200 → code ≠ 429 →
        apiSearchWeb true oracle = { results := [], attempts := 1, sleeps := [] })
    ∧ (∀ oracle os, oracle 0 = .netFailure → oracle 1 = .status 200 (some os) →
        apiSearchWeb true oracle
          = { results := os.map formatApiOrganic, attempts := 2, sleeps := [1] })
    ∧ callGroqApi true (fun _ => .status 429 none)
        = { text := "Erro: Todas as tentativas de chamada da API Groq falharam"
            attempts := 3, sleeps := [1, 2, 4] }
    ∧ (∀ oracle content, oracle 0 = .status 400 content →
        callGroqApi true oracle
          = { text := "Erro: Requisição inválida para a API Groq"
              attempts := 1, sleeps := [] })
    ∧ (∀ avail cache now resp q n, (searchWeb avail cache now resp q n).networkCalls ≤ 1) := by
  refine ⟨?_, ?_, ?_, ?_, ?_, ?_, ?_⟩
  · intro oracle
    have := apiSearchWebLoop_attempts_le oracle maxRetries 0 []
    simpa [apiSearchWeb, maxRetries] using this
  · rfl
  · intro oracle code organic h h200 h429
    have b200 : (code == 200) = false := by simp [h200]
    have b429 : (code == 429) = false := by simp [h429]
    simp [apiSearchWeb, maxRetries, apiSearchWebLoop, h, b200, b429]
  · intro oracle os h0 h1
    simp [apiSearchWeb, maxRetries, apiSearchWebLoop, h0, h1]
  · rfl
  · intro oracle content h
    simp [callGroqApi, maxRetries, callGroqApiLoop, h]
  · intro avail cache now resp q n
    rcases hg : getFromCache cache (webCacheKey q n) now with _ | d
    · simpa [searchWeb, hg] using
        searchWebNetwork_calls_le avail cache (webCacheKey q n) now resp
    · by_cases hd : d.isEmpty = true
      · simpa [searchWeb, hg, hd] using
          searchWebNetwork_calls_le avail cache (webCacheKey q n) now resp
      · simp [searchWeb, hg, hd]

/-- Witness for C4 (amended): concrete instances of the non-retrying branches
of the two helpers. -/
theorem c4_witness :
    apiSearchWeb true (fun _ => .status 500 none)
      = { results := [], attempts := 1, sleeps := [] }
    ∧ callGroqApi true (fun _ => .status 400 none)
      = { text := "Erro: Requisição inválida para a API Groq"
          attempts := 1, sleeps := [] }
    ∧ (searchWeb true [] 0 .netFailure "q" 5).networkCalls ≤ 1 :=
  ⟨c4_retry_policy_amended.2.2.1 (fun _ => .status 500 none) 500 none rfl
      (by omega) (by omega),
   c4_retry_policy_amended.2.2.2.2.2.1 (fun _ => .status 400 none) none rfl,
   c4_retry_policy_amended.2.2.2.2.2.2 true [] 0 .netFailure "q" 5⟩

/-! ## C6 — the translator is the identity on English input -/

/-- C6: when the input meets the English-detection threshold (at least two of
the common function words, or a one-word input) `_translate_to_english`
returns it unchanged, and in particular
`translate("artificial intelligence in healthcare")` returns exactly
`"artificial intelligence in healthcare"` (that input contains only one
function word, `in`, so it passes through the substitution passes untouched:
no dictionary entry matches and unmapped tokens are kept as they are).  The
function is total, so no input can raise. -/
theorem c6_translate_identity_on_english :
    (∀ t, 2 ≤ countEnglishIndicators (lowerS t) → translateToEnglish t = t)
    ∧ (∀ t, (pySplit t).length ≤ 1 → translateToEnglish t = t)
    ∧ translateToEnglish "artificial intelligence in healthcare"
        = "artificial intelligence in healthcare" := by
  refine ⟨?_, ?_, by decide⟩
  · intro t h
    simp only [translateToEnglish]
    rw [if_pos (Or.inl h)]
  · intro t h
    simp only [translateToEnglish]
    rw [if_pos (Or.inr h)]

/-- Witness for C6: a phrase meeting the function-word threshold and a
one-word input are both returned unchanged. -/
theorem c6_witness :
    (2 ≤ countEnglishIndicators (lowerS "the cat and the dog")
      ∧ translateToEnglish "the cat and the dog" = "the cat and the dog")
    ∧ ((pySplit "saúde").length ≤ 1 ∧ translateToEnglish "saúde" = "saúde") :=
  ⟨⟨by decide, c6_translate_identity_on_english.1 "the cat and the dog" (by decide)⟩,
   ⟨by decide, c6_translate_identity_on_english.2.1 "saúde" (by decide)⟩⟩

/-! ## C7 — relevance scores live in the unit interval -/

theorem mem_formatRedditResults (fmtDate : Int → String) (posts : List (Option RedditPost))
    (maxResults : Nat) (q : String) (r : RedditRecord)
    (h : r ∈ formatRedditResults fmtDate posts maxResults q) :
    ∃ p, some p ∈ posts ∧ r = formatOneRedditPost fmtDate (queryTerms q) p := by
  rw [formatRedditResults] at h
  have h2 := List.take_subset _ _ h
  have h3 : r ∈ redditSortedList fmtDate posts q := by
    by_cases hc : (redditFilteredList fmtDate posts q).length < maxResults / 2
    · rw [if_pos hc] at h2; exact h2
    · rw [if_neg hc, redditFilteredList] at h2
      exact List.mem_of_mem_filter h2
  rw [redditSortedList, mem_insertionSort, redditFormattedList, List.mem_filterMap] at h3
  obtain ⟨p?, hp, hmap⟩ := h3
  cases p? with
  | none => simp at hmap
  | some p => exact ⟨p, hp, by simpa using hmap.symm⟩

theorem calculateRedditRelevance_bounds (title content subreddit : String)
    (qterms : List String) :
    0 ≤ calculateRedditRelevance title content subreddit qterms
    ∧ calculateRedditRelevance title content subreddit qterms ≤ 1 := by
  simp only [calculateRedditRelevance]
  by_cases h : qterms.isEmpty = true
  · rw [if_pos h]
    norm_num
  · rw [if_neg h]
    exact ⟨le_max_left 0 _, max_le (by norm_num) (min_le_left _ _)⟩

/-- C7: `_calculate_reddit_relevance` always returns a rational in `[0, 1]`
(the final score is clamped by `max(0.0, min(1.0, score))`); with an empty
query-term set it returns the neutral `0.5` without dividing by zero; and
every record produced by `_format_reddit_results` — whose sort key is the
stored `relevance` — carries a relevance in `[0, 1]`. -/
theorem c7_relevance_in_unit_interval (title content subreddit : String)
    (qterms : List String) :
    0 ≤ calculateRedditRelevance title content subreddit qterms
    ∧ calculateRedditRelevance title content subreddit qterms ≤ 1
    ∧ (qterms = [] → calculateRedditRelevance title content subreddit qterms = 1/2)
    ∧ (∀ fmtDate posts maxResults q r, r ∈ formatRedditResults fmtDate posts maxResults q →
        0 ≤ r.relevance ∧ r.relevance ≤ 1) := by
  refine ⟨(calculateRedditRelevance_bounds title content subreddit qterms).1,
    (calculateRedditRelevance_bounds title content subreddit qterms).2, ?_, ?_⟩
  · intro h
    rw [h]
    simp [calculateRedditRelevance]
  · intro fmtDate posts maxResults q r hmem
    obtain ⟨p, hp, hr⟩ := mem_formatRedditResults fmtDate posts maxResults q r hmem
    rw [hr]
    exact calculateRedditRelevance_bounds _ _ _ _

theorem simplePost_relevance :
    (formatOneRedditPost (fun _ => "") (queryTerms "") simplePost).relevance = 1/2 := by
  simp [formatOneRedditPost, queryTerms, pySplit, splitWsAux, pyDedupGo, calculateRedditRelevance]

theorem formatRedditResults_simplePost :
    formatRedditResults (fun _ => "") [some simplePost] 5 ""
      = [formatOneRedditPost (fun _ => "") (queryTerms "") simplePost] := by
  have hsorted : redditSortedList (fun _ => "") [some simplePost] ""
      = [formatOneRedditPost (fun _ => "") (queryTerms "") simplePost] := by
    simp [redditSortedList, redditFormattedList, insertionSort, insertSorted]
  have hfiltered : redditFilteredList (fun _ => "") [some simplePost] ""
      = [formatOneRedditPost (fun _ => "") (queryTerms "") simplePost] := by
    rw [redditFilteredList, hsorted]
    simp only [List.filter, simplePost_relevance]
    norm_num
  rw [formatRedditResults, hsorted, hfiltered]
  simp

/-- Witness for C7: the neutral value on an empty term set, and a concrete
formatted record whose stored relevance is within bounds. -/
theorem c7_witness :
    calculateRedditRelevance "a" "b" "c" [] = 1/2
    ∧ (formatOneRedditPost (fun _ => "") (queryTerms "") simplePost
          ∈ formatRedditResults (fun _ => "") [some simplePost] 5 ""
      ∧ 0 ≤ (formatOneRedditPost (fun _ => "") (queryTerms "") simplePost).relevance
      ∧ (formatOneRedditPost (fun _ => "") (queryTerms "") simplePost).relevance ≤ 1) := by
  have hmem : formatOneRedditPost (fun _ => "") (queryTerms "") simplePost
      ∈ formatRedditResults (fun _ => "") [some simplePost] 5 "" := by
    rw [formatRedditResults_simplePost]
    exact List.mem_singleton.mpr rfl
  exact ⟨(c7_relevance_in_unit_interval "a" "b" "c" []).2.2.1 rfl,
    hmem, (c7_relevance_in_unit_interval "a" "b" "c" []).2.2.2 _ _ _ _ _ hmem⟩

/-! ## C9 — snippet truncation -/

theorem filterMap_map_length {α β : Type} (f : α → β) :
    ∀ posts : List (Option α),
      (posts.filterMap (fun p? => p?.map f)).length = (posts.filterMap id).length := by
  intro posts
  induction posts with
  | nil => rfl
  | cons p? rest ih => cases p? <;> simp [List.filterMap_cons, ih]

/-- Counterexample to C9 as stated: the *web* adapter performs no snippet
truncation at all.  Fed one organic result whose snippet is 501 characters
long, `search_web` returns a record whose snippet still has 501 characters
(in particular it exceeds the 500-character cap and carries no ellipsis). -/
theorem c9_counterexample :
    (searchWeb true [] 0
        (.status 200 (some [⟨some "T", some "u",
          some (String.mk (List.replicate 501 'a'))⟩])) "q" 5).results.map
        (fun r => r.snippet.length)
      = [501] := by
  have hres : (searchWeb true [] 0
      (.status 200 (some [⟨some "T", some "u",
        some (String.mk (List.replicate 501 'a'))⟩])) "q" 5).results
      = [⟨"T", "u", String.mk (List.replicate 501 'a'), "Web", "web"⟩] := by
    simp [searchWeb, getFromCache, lookupCache, searchWebNetwork, formatOrganic]
  rw [hres]
  simp only [List.map_cons, List.map_nil]
  rw [length_mk, List.length_replicate]

/-- C9 amended: in the discussion-board formatting paths, a snippet longer
than 500 characters is truncated to exactly 500 characters ending with the
ellipsis marker, every returned record's snippet is at most 500 characters,
and truncation never drops a record (the formatted list has one record per
valid post); the web adapter, by contrast, applies no snippet cap (see the
counterexample). -/
theorem c9_snippet_truncation_amended :
    (∀ s, (processSnippet s).length ≤ 500)
    ∧ (∀ s, 500 < s.length →
        (processSnippet s).length = 500 ∧ endsWithEllipsis (processSnippet s) = true)
    ∧ (∀ fmtDate posts maxResults q r, r ∈ formatRedditResults fmtDate posts maxResults q →
        r.snippet.length ≤ 500)
    ∧ (∀ fmtDate q posts,
        (redditFormattedList fmtDate posts q).length = (posts.filterMap id).length) := by
  have hbound : ∀ s, (processSnippet s).length ≤ 500 := by
    intro s
    by_cases h : 500 < s.length
    · have h' : 500 < s.data.length := h
      rw [processSnippet, if_pos h, length_append', pyTake, length_mk, List.length_take]
      show min 497 s.data.length + 3 ≤ 500
      omega
    · rw [processSnippet, if_neg h]
      omega
  refine ⟨hbound, ?_, ?_, ?_⟩
  · intro s h
    have h' : 500 < s.data.length := h
    constructor
    · rw [processSnippet, if_pos h, length_append', pyTake, length_mk, List.length_take]
      show min 497 s.data.length + 3 = 500
      omega
    · simp [processSnippet, h, endsWithEllipsis, pyTake, String.append,
        List.drop_append_eq_append_drop]
  · intro fmtDate posts maxResults q r hmem
    obtain ⟨p, hp, hr⟩ := mem_formatRedditResults fmtDate posts maxResults q r hmem
    rw [hr]
    exact hbound _
  · intro fmtDate q posts
    rw [redditFormattedList]
    exact filterMap_map_length _ posts

/-- Witness for C9 (amended): a concrete 501-character snippet is truncated
to 500 with the ellipsis, and a concrete formatted record obeys the cap. -/
theorem c9_witness :
    (500 < (String.mk (List.replicate 501 'a')).length
      ∧ (processSnippet (String.mk (List.replicate 501 'a'))).length = 500
      ∧ endsWithEllipsis (processSnippet (String.mk (List.replicate 501 'a'))) = true)
    ∧ (formatOneRedditPost (fun _ => "") (queryTerms "") simplePost
          ∈ formatRedditResults (fun _ => "") [some simplePost] 5 ""
      ∧ (formatOneRedditPost (fun _ => "") (queryTerms "") simplePost).snippet.length ≤ 500) := by
  have hlen : 500 < (String.mk (List.replicate 501 'a')).length := by
    rw [length_mk, List.length_replicate]
    omega
  have hmem : formatOneRedditPost (fun _ => "") (queryTerms "") simplePost
      ∈ formatRedditResults (fun _ => "") [some simplePost] 5 "" := by
    rw [formatRedditResults_simplePost]
    exact List.mem_singleton.mpr rfl
  exact ⟨⟨hlen, c9_snippet_truncation_amended.2.1 _ hlen⟩,
    hmem, c9_snippet_truncation_amended.2.2.1 _ _ _ _ _ hmem⟩

/-! ## C5 — dual-topic threshold filtering -/

theorem laptopRecord_relevance :
    calculateRedditRelevance "Best budget laptops 2024" "..." "laptops"
      ["artificial", "intelligence", "healthcare"] = 0 := by
  have hsub : subredditHit (lowerS "laptops")
      ["artificial", "intelligence", "healthcare"] = false := by decide
  have ht : countMatches ["artificial", "intelligence", "healthcare"]
      (lowerS "Best budget laptops 2024") = 0 := by decide
  have hc : countMatches ["artificial", "intelligence", "healthcare"]
      (lowerS "...") = 0 := by decide
  have hp1 : ((phrasesOf ["artificial", "intelligence", "healthcare"]).filter
      (fun p => 5 < p.length)).filter
      (fun p => containsS (lowerS "Best budget laptops 2024") p) = [] := by decide
  have hp2 : ((phrasesOf ["artificial", "intelligence", "healthcare"]).filter
      (fun p => 5 < p.length)).filter (fun p => containsS (lowerS "...") p) = [] := by decide
  have hq : qualityMatches (lowerS "Best budget laptops 2024") (lowerS "...") = 0 := by decide
  have hlen : ("..." : String).length = 3 := by decide
  simp only [calculateRedditRelevance, List.isEmpty_cons, Bool.false_eq_true, if_false,
    hsub, ht, hc, hp1, hp2, hq, hlen]
  norm_num [max_def, min_def]

/-- Counterexample to C5 as stated: the MCP discussion-board formatter
(`_format_reddit_results`) does *not* always exclude a zero-matched-keyword
record on the dual-topic query "artificial intelligence in healthcare".  The
record titled "Best budget laptops 2024" scores relevance 0 and is removed by
the 0.3 threshold, but because fewer than `max_results // 2` records survive,
the fallback of mcp.py 1405-1406 reinstates the full sorted list and the
record is returned. -/
theorem c5_counterexample :
    (formatRedditResults (fun _ => "") [some laptopPost] 5
        "artificial intelligence in healthcare").map (fun r => r.title)
      = ["Best budget laptops 2024"] := by
  have hqt : queryTerms "artificial intelligence in healthcare"
      = ["artificial", "intelligence", "healthcare"] := by decide
  have hrel : (formatOneRedditPost (fun _ => "")
      (queryTerms "artificial intelligence in healthcare") laptopPost).relevance = 0 := by
    have h : (formatOneRedditPost (fun _ => "")
        (queryTerms "artificial intelligence in healthcare") laptopPost).relevance
        = calculateRedditRelevance "Best budget laptops 2024" "..." "laptops"
          ["artificial", "intelligence", "healthcare"] := by
      rw [hqt]
      rfl
    exact h.trans laptopRecord_relevance
  have hsorted : redditSortedList (fun _ => "") [some laptopPost]
      "artificial intelligence in healthcare"
      = [formatOneRedditPost (fun _ => "")
          (queryTerms "artificial intelligence in healthcare") laptopPost] := by
    simp [redditSortedList, redditFormattedList, insertionSort, insertSorted]
  have hfilter : redditFilteredList (fun _ => "") [some laptopPost]
      "artificial intelligence in healthcare" = [] := by
    rw [redditFilteredList, hsorted]
    simp only [List.filter, hrel]
    norm_num
  rw [formatRedditResults, hsorted, hfilter]
  norm_num
  rfl

/-- C5 amended: on a dual-topic AI-plus-health query, every record returned
by `filter_reddit_results` (improved_filtering.py) comes from a post whose
text contains both an AI-family and a health-family term and carries a
relevance score of at least 3 — so a record with zero matched keywords, such
as the "Best budget laptops 2024" example, is excluded there unconditionally,
regardless of its popularity score.  The MCP discussion-board formatter
(`_format_reddit_results`) guarantees the 0.3 relevance threshold only when
at least `max_results // 2` records survive it; otherwise its fallback may
return below-threshold records (see the counterexample). -/
theorem c5_dual_topic_filter_amended :
    (∀ posts q maxResults r, isHealthAiQuery q = true →
        r ∈ filterRedditResults posts q maxResults →
        ∃ p, some p ∈ posts
          ∧ hasAiTermIF p = true
          ∧ hasHealthTermIF p = true
          ∧ 3 ≤ r.relevanceScore)
    ∧ filterRedditResults [some laptopPost] "artificial intelligence in healthcare" 5 = []
    ∧ (∀ fmtDate posts q maxResults r,
        ¬ (redditFilteredList fmtDate posts q).length < maxResults / 2 →
        r ∈ formatRedditResults fmtDate posts maxResults q →
        (3:ℚ)/10 < r.relevance) := by
  refine ⟨?_, by decide, ?_⟩
  · intro posts q maxResults r hq hr
    rw [filterRedditResults] at hr
    have h2 := List.take_subset _ _ hr
    rw [mem_insertionSort, List.mem_filterMap] at h2
    obtain ⟨p?, hp?, hbind⟩ := h2
    cases p? with
    | none => simp at hbind
    | some p =>
      simp only [Option.some_bind] at hbind
      cases hA : hasAiTermIF p with
      | false => simp [processFilteredPost, hq, hA] at hbind
      | true =>
        cases hB : hasHealthTermIF p with
        | false => simp [processFilteredPost, hq, hA, hB] at hbind
        | true =>
          refine ⟨p, hp?, hA, hB, ?_⟩
          simp only [processFilteredPost, hq, hA, hB, Bool.and_self, Bool.not_true,
            Bool.false_eq_true, if_false, eq_self_iff_true, if_true] at hbind
          by_cases hs : healthAiScore p < 3
          · simp [hs] at hbind
          · rw [if_neg hs] at hbind
            have heq := Option.some.inj hbind
            rw [← heq]
            show 3 ≤ healthAiScore p
            omega
  · intro fmtDate posts q maxResults r hlen hmem
    rw [formatRedditResults, if_neg hlen] at hmem
    have h2 := List.take_subset _ _ hmem
    rw [redditFilteredList] at h2
    exact of_decide_eq_true (List.mem_filter.mp h2).2

/-- Witness for C5 (amended): a post mentioning both topics passes the
improved filter, and the characterization applies to its returned record. -/
theorem c5_witness :
    (isHealthAiQuery "artificial intelligence in healthcare" = true
      ∧ buildFilteredRecord aiHealthPost 15
          ∈ filterRedditResults [some aiHealthPost] "artificial intelligence in healthcare" 5)
    ∧ (∃ p, some p ∈ [some aiHealthPost]
        ∧ hasAiTermIF p = true
        ∧ hasHealthTermIF p = true
        ∧ 3 ≤ (buildFilteredRecord aiHealthPost 15).relevanceScore) :=
  ⟨⟨by decide, by decide⟩,
   c5_dual_topic_filter_amended.1 [some aiHealthPost]
     "artificial intelligence in healthcare" 5 (buildFilteredRecord aiHealthPost 15)
     (by decide) (by decide)⟩

/-! ## C8 — the Product Hunt ranker mutates records in place -/

theorem phScore_setRelevance (d : String → Option Int) (r : PHRecord) (s : ℚ)
    (k : List String) : phScore d (setRelevancePH r s) k = phScore d r k := rfl

theorem mutateStore_apply (d : String → Option Int) (k : List String) :
    ∀ (addrs : List Nat) (store : PHStore) (a : Nat),
      mutateStore d k addrs store a
        = if a ∈ addrs then setRelevancePH (store a) (phScore d (store a) k) else store a := by
  intro addrs
  induction addrs with
  | nil =>
    intro store a
    simp [mutateStore]
  | cons b rest ih =>
    intro store a
    simp only [mutateStore]
    rw [ih]
    by_cases hab : a = b
    · subst hab
      by_cases har : a ∈ rest
      · rw [if_pos har, if_pos (List.mem_cons_self a rest)]
        simp only [updateStore, if_pos rfl]
        rfl
      · rw [if_neg har, if_pos (List.mem_cons_self a rest)]
        simp [updateStore]
    · have hu : updateStore store b (setRelevancePH (store b) (phScore d (store b) k)) a
          = store a := by
        simp [updateStore, hab]
      rw [hu]
      by_cases har : a ∈ rest
      · rw [if_pos har, if_pos (List.mem_cons_of_mem b har)]
      · rw [if_neg har, if_neg (by simp [List.mem_cons, hab, har])]

/-- Counterexample to C8 as stated: ranking does *not* leave the input
records unchanged.  Run on a store holding one fresh adapter record (whose
`relevance_score` is absent) the ranker overwrites that same record's
`relevance_score` in place with the computed score 3. -/
theorem c8_counterexample :
    ((rankProducthuntResults (fun _ => none) (fun _ => phSample) [0] ["ai"]).1 0).relevanceScore
      = some 3
    ∧ phSample.relevanceScore = none := by
  constructor
  · have h1 : (rankProducthuntResults (fun _ => none) (fun _ => phSample) [0] ["ai"]).1 0
        = setRelevancePH phSample (phScore (fun _ => none) phSample ["ai"]) := by
      simp only [rankProducthuntResults]
      rw [mutateStore_apply, if_pos (by simp)]
    rw [h1]
    show some (phScore (fun _ => none) phSample ["ai"]) = some 3
    have hkw : containsS (phSearchText phSample) (lowerS "ai") = true := by decide
    have hti : containsS (lowerS phSample.title) (lowerS "ai") = true := by decide
    have hvotes : phSample.votes = 0 := rfl
    have hdate : (phSample.createdDate == "") = true := rfl
    simp only [phScore, phKeywordScore, List.foldl_cons, List.foldl_nil, hkw, hti, hvotes,
      hdate, eq_self_iff_true, if_true]
    norm_num
  · rfl

/-- C8 amended: the Product Hunt ranker mutates every input record in place,
overwriting exactly its `relevance_score` field with the computed score while
leaving every other field (and every record not in the input list) unchanged;
the list it returns is a permutation (the sorted order) of the same mutated
records.  The discussion-board paths, by contrast, build fresh record
dictionaries. -/
theorem c8_ranker_mutation_amended (daysOld : String → Option Int) (store : PHStore)
    (addrs : List Nat) (keywords : List String) (a : Nat) :
    (a ∈ addrs → (rankProducthuntResults daysOld store addrs keywords).1 a
        = setRelevancePH (store a) (phScore daysOld (store a) keywords))
    ∧ (a ∉ addrs → (rankProducthuntResults daysOld store addrs keywords).1 a = store a)
    ∧ List.Perm (rankProducthuntResults daysOld store addrs keywords).2 addrs := by
  refine ⟨?_, ?_, ?_⟩
  · intro h
    simp only [rankProducthuntResults]
    rw [mutateStore_apply, if_pos h]
  · intro h
    simp only [rankProducthuntResults]
    rw [mutateStore_apply, if_neg h]
  · simp only [rankProducthuntResults]
    exact perm_insertionSort _ _

/-- Witness for C8 (amended): the listed record is overwritten with its
score; an unlisted address is untouched. -/
theorem c8_witness :
    (0 ∈ [0]
      ∧ (rankProducthuntResults (fun _ => none) (fun _ => phSample) [0] ["ai"]).1 0
          = setRelevancePH phSample (phScore (fun _ => none) phSample ["ai"]))
    ∧ ((1 : Nat) ∉ [0]
      ∧ (rankProducthuntResults (fun _ => none) (fun _ => phSample) [0] ["ai"]).1 1
          = phSample) :=
  ⟨⟨by decide,
    (c8_ranker_mutation_amended (fun _ => none) (fun _ => phSample) [0] ["ai"] 0).1 (by decide)⟩,
   ⟨by decide,
    (c8_ranker_mutation_amended (fun _ => none) (fun _ => phSample) [0] ["ai"] 1).2.1 (by decide)⟩⟩

end FourSight
